import Mathlib

/-
Shallow embedding of the Pulumi resource topology declared in `__main__.py`.

The program is a single-pass declarative script: it builds a fixed list of
cloud resource descriptors (resource group, virtual network, two subnets,
private DNS zone, DNS link, private endpoint, DNS zone group, app service
plan, web app, VNet integration, application settings, source control hook,
and a cost budget) and a list of exported stack outputs.  We model each
descriptor as a record holding its logical name, resource type, the
resource-group / scope parameters it was declared with, its explicit
physical name when one is given, a property bag, and the list of logical
names of descriptors whose output attributes it references.

Run inputs: the optional `location` configuration value (an `Option String`,
`none` when the input is omitted) and the random hex string drawn from
`uuid.uuid4().hex` at evaluation time (a `String` parameter `uuidHex`).
-/

namespace PaaS

/-- A property-bag / export value: a literal string, number or boolean, an
output-attribute reference `ref descriptor attribute`, a secret value
obtained from the `list_account_keys` invoke (`secretRef key`), or the result
of applying the https-prefixing lambda to an output reference. -/
inductive Val where
  | str : String → Val
  | nat : Nat → Val
  | bool : Bool → Val
  | ref : String → String → Val
  | secretRef : String → Val
  | httpsRef : String → String → Val
deriving DecidableEq, Repr

/-- One declared resource descriptor. `resource_group_name` is the
`resource_group_name=` parameter passed in the source (none when the
resource is not declared with one), `scope` the `scope=` parameter,
`physicalName` the explicit physical-name parameter when the source passes
one, `props` the remaining property bag, and `refs` the logical names of the
descriptors whose output attributes (`.name`, `.id`, ...) this declaration
consumes. -/
structure Descriptor where
  logicalName : String
  resourceType : String
  resource_group_name : Option String := none
  scope : Option String := none
  physicalName : Option String := none
  loc : Option String := none
  props : List (String × Val) := []
  refs : List String := []
deriving DecidableEq, Repr

/-- `config.get("location") or "westeurope"`: Python `or` returns the right
operand whenever the left is falsy, i.e. when the config value is absent
(`None`) or the empty string. -/
def location (cfg : Option String) : String :=
  match cfg with
  | none => "westeurope"
  | some s => if s = "" then "westeurope" else s

/-- Hard-coded notification email. -/
def email : String := "wi24b100@technikum-wien.at"

/-- Hard-coded subscription identifier. -/
def subscription_id : String := "64b584d9-7fa6-49e0-ae15-d41006efcf1b"

/-- Resource group `paas_resource_group` with fixed name `paas-rg`. -/
def resource_group (cfg : Option String) : Descriptor :=
  { logicalName := "paas_resource_group"
    resourceType := "resources.ResourceGroup"
    resource_group_name := some "paas-rg"
    physicalName := some "paas-rg"
    loc := some (location cfg) }

/-- Address space of the virtual network. -/
def vnet_cidr : String := "10.10.0.0/16"

/-- Address range of the app subnet. -/
def app_subnet_cidr : String := "10.10.1.0/24"

/-- Address range of the endpoint subnet. -/
def endpoint_subnet_cidr : String := "10.10.2.0/24"

/-- Virtual network `paas_vnet`, physical name `paas-vnet`. -/
def vnet (cfg : Option String) : Descriptor :=
  { logicalName := "paas_vnet"
    resourceType := "network.VirtualNetwork"
    resource_group_name := some "paas-rg"
    physicalName := some "paas-vnet"
    loc := some (location cfg)
    props := [("address_space.address_prefixes", Val.str vnet_cidr)] }

/-- Subnet `app_subnet` with a `Microsoft.Web/serverFarms` delegation; its
`virtual_network_name` consumes `vnet.name`. -/
def app_subnet : Descriptor :=
  { logicalName := "app_subnet"
    resourceType := "network.Subnet"
    resource_group_name := some "paas-rg"
    physicalName := some "app-subnet"
    props := [("address_prefix", Val.str app_subnet_cidr),
              ("delegations.0.name", Val.str "appDelegation"),
              ("delegations.0.service_name", Val.str "Microsoft.Web/serverFarms")]
    refs := ["paas_vnet"] }

/-- Subnet `endpoint_subnet` with private-endpoint network policies disabled;
its `virtual_network_name` consumes `vnet.name`. -/
def endpoint_subnet : Descriptor :=
  { logicalName := "endpoint_subnet"
    resourceType := "network.Subnet"
    resource_group_name := some "paas-rg"
    physicalName := some "endpoint-subnet"
    props := [("address_prefix", Val.str endpoint_subnet_cidr),
              ("private_endpoint_network_policies", Val.str "Disabled")]
    refs := ["paas_vnet"] }

/-- Private DNS zone for the cognitive-services private link. -/
def private_dns_zone : Descriptor :=
  { logicalName := "private_dns_zone"
    resourceType := "network.PrivateZone"
    resource_group_name := some "paas-rg"
    physicalName := some "privatelink.cognitiveservices.azure.com"
    loc := some "global" }

/-- VNet-to-private-DNS-zone link; consumes `private_dns_zone.name` and
`vnet.id`. -/
def vnet_dns_link : Descriptor :=
  { logicalName := "vnet_dns_link"
    resourceType := "network.VirtualNetworkLink"
    resource_group_name := some "paas-rg"
    loc := some "global"
    props := [("registration_enabled", Val.bool false)]
    refs := ["private_dns_zone", "paas_vnet"] }

/-- Name of the pre-existing cognitive-services account. -/
def ass7_account_name : String := "ass7"

/-- `f"https://{ass7_account_name}.cognitiveservices.azure.com/"`. -/
def cognitive_endpoint : String :=
  "https://" ++ ass7_account_name ++ ".cognitiveservices.azure.com/"

/-- Constructed resource id of the pre-existing cognitive-services account
(a plain string built from the hard-coded subscription id, not an output
reference to a declared descriptor). -/
def cog_account_id : String :=
  "/subscriptions/" ++ subscription_id ++
    "/resourceGroups/paas-rg/providers/Microsoft.CognitiveServices/accounts/" ++
    ass7_account_name

/-- Private endpoint `cogPrivateEndpoint`; consumes `endpoint_subnet.id`;
its `private_link_service_id` is the constructed string `cog_account_id`. -/
def cog_private_endpoint (cfg : Option String) : Descriptor :=
  { logicalName := "cogPrivateEndpoint"
    resourceType := "network.PrivateEndpoint"
    resource_group_name := some "paas-rg"
    physicalName := some "cog-pe"
    loc := some (location cfg)
    props := [("private_link_service_connections.0.name", Val.str "cogConnection"),
              ("private_link_service_connections.0.private_link_service_id",
                Val.str cog_account_id),
              ("private_link_service_connections.0.group_ids.0", Val.str "account")]
    refs := ["endpoint_subnet"] }

/-- DNS zone group attaching the private DNS zone to the private endpoint;
consumes `cog_private_endpoint.name` and `private_dns_zone.id`. -/
def cog_private_dns_zone_group : Descriptor :=
  { logicalName := "cogPrivateDnsZoneGroup"
    resourceType := "network.PrivateDnsZoneGroup"
    resource_group_name := some "paas-rg"
    physicalName := some "cogZoneGroup"
    props := [("private_dns_zone_configs.0.name", Val.str "cogDnsConfig")]
    refs := ["cogPrivateEndpoint", "private_dns_zone"] }

/-- App service plan `appServicePlan` (Premium P1v2, 3 workers, linux). -/
def app_service_plan (cfg : Option String) : Descriptor :=
  { logicalName := "appServicePlan"
    resourceType := "web.AppServicePlan"
    resource_group_name := some "paas-rg"
    physicalName := some "paas-asp"
    loc := some (location cfg)
    props := [("kind", Val.str "linux"),
              ("sku.name", Val.str "P1v2"),
              ("sku.tier", Val.str "Premium"),
              ("sku.capacity", Val.nat 3),
              ("reserved", Val.bool true)] }

/-- Fixed web app name. -/
def web_app_name : String := "paas-webapp-demo-group-6"

/-- Web app `webApp`; its `server_farm_id` consumes `app_service_plan.id`. -/
def web_app (cfg : Option String) : Descriptor :=
  { logicalName := "webApp"
    resourceType := "web.WebApp"
    resource_group_name := some "paas-rg"
    physicalName := some web_app_name
    loc := some (location cfg)
    props := [("https_only", Val.bool true),
              ("kind", Val.str "app,linux"),
              ("site_config.linux_fx_version", Val.str "PYTHON|3.9"),
              ("site_config.always_on", Val.bool true),
              ("site_config.ftps_state", Val.str "Disabled")]
    refs := ["appServicePlan"] }

/-- Swift VNet integration of the web app; consumes `web_app.name` and
`app_subnet.id`. -/
def web_app_vnet_connection : Descriptor :=
  { logicalName := "webAppVnetConnection"
    resourceType := "web.WebAppSwiftVirtualNetworkConnection"
    resource_group_name := some "paas-rg"
    refs := ["webApp", "app_subnet"] }

/-- Application settings of the web app: the cognitive endpoint, the secret
`key1` from the `list_account_keys` invoke, and the run-from-package flag.
Consumes `web_app.name`. -/
def app_settings : Descriptor :=
  { logicalName := "webAppSettings"
    resourceType := "web.WebAppApplicationSettings"
    resource_group_name := some "paas-rg"
    props := [("COG_SERVICES_ENDPOINT", Val.str cognitive_endpoint),
              ("COG_SERVICES_KEY", Val.secretRef "key1"),
              ("WEBSITE_RUN_FROM_PACKAGE", Val.str "0")]
    refs := ["webApp"] }

/-- Source-control hook of the web app; consumes `web_app.name`. -/
def web_app_source_control : Descriptor :=
  { logicalName := "webAppSourceControl"
    resourceType := "web.WebAppSourceControl"
    resource_group_name := some "paas-rg"
    props := [("repo_url", Val.str "https://github.com/StefanFHtechnikum/clco-demo"),
              ("branch", Val.str "main"),
              ("is_git_hub_action", Val.bool false),
              ("is_manual_integration", Val.bool true),
              ("deployment_rollback_enabled", Val.bool false)]
    refs := ["webApp"] }

/-- `f"myBudget{uuid.uuid4().hex[:8]}"`: the first 8 characters of the
freshly drawn random uuid hex are appended to the fixed stem. -/
def budget_name (uuidHex : String) : String := "myBudget" ++ uuidHex.take 8

/-- Declared start date of the budget time period. -/
def budget_start_date : String := "2024-12-01T00:00:00Z"

/-- Declared end date of the budget time period. -/
def budget_end_date : String := "2025-12-31T00:00:00Z"

/-- `BudgetTimePeriodArgs`. -/
structure BudgetTimePeriodArgs where
  start_date : String
  end_date : String
deriving DecidableEq, Repr

/-- `NotificationArgs`. -/
structure NotificationArgs where
  enabled : Bool
  operator : String
  threshold : Nat
  contact_emails : List String
  threshold_type : String
deriving DecidableEq, Repr

/-- The budget resource, with its full structured property set. -/
structure Budget where
  logicalName : String
  scope : String
  amount : Nat
  category : String
  time_grain : String
  time_period : BudgetTimePeriodArgs
  notifications : List (String × NotificationArgs)
deriving DecidableEq, Repr

/-- `my_budget`, parameterised by the random uuid hex drawn at run time. -/
def my_budget (uuidHex : String) : Budget :=
  { logicalName := budget_name uuidHex
    scope := "/subscriptions/" ++ subscription_id
    amount := 10
    category := "Cost"
    time_grain := "Monthly"
    time_period := { start_date := budget_start_date, end_date := budget_end_date }
    notifications :=
      [("Actual_GreaterThan_80_Percent",
        { enabled := true, operator := "GreaterThan", threshold := 80,
          contact_emails := [email], threshold_type := "Actual" }),
       ("Forecasted_GreaterThan_100_Percent",
        { enabled := true, operator := "GreaterThan", threshold := 100,
          contact_emails := [email], threshold_type := "Forecasted" })] }

/-- The budget as a topology descriptor: subscription-scoped, no
resource-group parameter, no output references. -/
def budgetDescriptor (uuidHex : String) : Descriptor :=
  { logicalName := budget_name uuidHex
    resourceType := "costmanagement.Budget"
    scope := some ("/subscriptions/" ++ subscription_id)
    props := [("amount", Val.nat 10),
              ("category", Val.str "Cost"),
              ("time_grain", Val.str "Monthly"),
              ("time_period.start_date", Val.str budget_start_date),
              ("time_period.end_date", Val.str budget_end_date)] }

/-- The full topology, in declaration order of the source. -/
def topology (cfg : Option String) (uuidHex : String) : List Descriptor :=
  [resource_group cfg, vnet cfg, app_subnet, endpoint_subnet,
   private_dns_zone, vnet_dns_link, cog_private_endpoint cfg,
   cog_private_dns_zone_group, app_service_plan cfg, web_app cfg,
   web_app_vnet_connection, app_settings, web_app_source_control,
   budgetDescriptor uuidHex]

/-- The lambda applied to the generated hostname of the web app in the
`web_app_url` export: `lambda host: f"https://\x7bhost\x7d"`. -/
def hostToUrl (host : String) : String := "https://" ++ host

/-- The `pulumi.export` calls, in source order. -/
def exports : List (String × Val) :=
  [("resource_group_name", Val.ref "paas_resource_group" "name"),
   ("vnet_name", Val.ref "paas_vnet" "name"),
   ("app_subnet_name", Val.ref "app_subnet" "name"),
   ("endpoint_subnet_name", Val.ref "endpoint_subnet" "name"),
   ("private_dns_zone_name", Val.ref "private_dns_zone" "name"),
   ("cognitive_service_name", Val.str ass7_account_name),
   ("cognitive_endpoint", Val.str cognitive_endpoint),
   ("cognitive_key", Val.secretRef "key1"),
   ("web_app_url", Val.httpsRef "webApp" "default_host_name")]

/-- Does a value carry a secret fetched by the `list_account_keys` invoke? -/
def isSecretVal : Val → Bool
  | Val.secretRef _ => true
  | _ => false

/-- Every secret occurrence in the property bags of the descriptors is the
`COG_SERVICES_KEY` entry of the `webAppSettings` descriptor. -/
def secretsOnlyInAppSettings (ds : List Descriptor) : Bool :=
  ds.all fun d =>
    d.props.all fun p =>
      !isSecretVal p.2 ||
        (d.logicalName == "webAppSettings" && p.1 == "COG_SERVICES_KEY")

/-- The stack-output names under which a secret value is exported. -/
def secretExportNames (es : List (String × Val)) : List String :=
  (es.filter fun e => isSecretVal e.2).map fun e => e.1

/-- Walk the topology in declaration order, checking that every output
reference of each descriptor names a descriptor already seen. -/
def refsResolveAux : List String → List Descriptor → Bool
  | _, [] => true
  | seen, d :: rest =>
      d.refs.all (fun r => seen.contains r) &&
        refsResolveAux (seen ++ [d.logicalName]) rest

/-- All output references in the topology point to strictly earlier
descriptors; in particular the reference graph is acyclic. -/
def refsResolveForward (ds : List Descriptor) : Bool := refsResolveAux [] ds

/-- Numeric value of a decimal digit character. -/
def digitVal (c : Char) : Option Nat :=
  if '0' ≤ c ∧ c ≤ '9' then some (c.toNat - 48) else none

/-- Fold a list of decimal digit characters into a number. -/
def digitsToNatAux (acc : Nat) : List Char → Option Nat
  | [] => some acc
  | c :: cs =>
      match digitVal c with
      | some d => digitsToNatAux (acc * 10 + d) cs
      | none => none

/-- Split a character list on a separator character. -/
def splitOnCharAux (sep : Char) (cur : List Char) : List Char → List (List Char)
  | [] => [cur.reverse]
  | c :: cs =>
      if c = sep then cur.reverse :: splitOnCharAux sep [] cs
      else splitOnCharAux sep (c :: cur) cs

/-- Parse a dotted-quad IPv4 address into its 32-bit numeric value. -/
def parseIpv4 (s : String) : Option Nat :=
  match (splitOnCharAux '.' [] s.data).map (digitsToNatAux 0) with
  | [some a, some b, some c, some d] =>
      if a < 256 && b < 256 && c < 256 && d < 256 then
        some (((a * 256 + b) * 256 + c) * 256 + d)
      else none
  | _ => none

/-- A CIDR block: numeric base address and mask length. -/
structure Cidr where
  base : Nat
  maskBits : Nat
deriving DecidableEq, Repr

/-- Parse `a.b.c.d/m` notation. -/
def parseCidr (s : String) : Option Cidr :=
  match splitOnCharAux '/' [] s.data with
  | [addr, m] =>
      match parseIpv4 (String.mk addr), digitsToNatAux 0 m with
      | some base, some mb => if mb ≤ 32 then some ⟨base, mb⟩ else none
      | _, _ => none
  | _ => none

/-- Number of addresses in the block. -/
def Cidr.size (c : Cidr) : Nat := 2 ^ (32 - c.maskBits)

/-- Numeric membership of an address in a CIDR block. -/
def Cidr.containsAddr (c : Cidr) (x : Nat) : Bool :=
  c.base ≤ x && x < c.base + c.size

/-- Modelled from the spec: the orchestration engine and cost-management
provider are not part of this repository; per §4.4 the provider accepts a
budget only when its declared time window starts in the present or future
month relative to the apply time.  Months are counted as `year * 12 + month`. -/
def providerAcceptsBudgetStart (applyYM startYM : Nat) : Prop :=
  applyYM ≤ startYM

/-- Extract `year * 12 + month` from an ISO-8601 timestamp literal such as
`2024-12-01T00:00:00Z`. -/
def parseYM (s : String) : Nat :=
  ((digitsToNatAux 0 (s.data.take 4)).getD 0) * 12 +
    ((digitsToNatAux 0 ((s.data.drop 5).take 2)).getD 0)

/-- Numeric form of the virtual-network block `10.10.0.0/16`. -/
def vnetBlock : Cidr := ⟨((10 * 256 + 10) * 256 + 0) * 256 + 0, 16⟩

/-- Numeric form of the app-subnet block `10.10.1.0/24`. -/
def appSubnetBlock : Cidr := ⟨((10 * 256 + 10) * 256 + 1) * 256 + 0, 24⟩

/-- Numeric form of the endpoint-subnet block `10.10.2.0/24`. -/
def endpointSubnetBlock : Cidr := ⟨((10 * 256 + 10) * 256 + 2) * 256 + 0, 24⟩

/-- Claim C1, counterexample: two evaluations with identical configuration
input (the location input omitted in both) but different random uuid draws
produce different descriptor logical-name lists — the budget logical name
embeds the first 8 characters of the freshly drawn uuid hex, so the claim
that every pair of same-input runs agrees on every logical name is false. -/
theorem claim_C1_counterexample :
    ¬ ((topology none "00000000000000000000000000000000").map Descriptor.logicalName =
        (topology none "11111111111111111111111111111111").map Descriptor.logicalName) := by
  decide

/-- Claim C1, amended: evaluation is deterministic in the configuration
input for every descriptor except the budget — the first 13 descriptors are
identical across any two runs with the same configuration input — and two
runs produce a fully identical topology exactly when the first 8 characters
of their uuid draws also coincide (the budget is the only descriptor whose
declaration consumes the random draw). -/
theorem claim_C1 (cfg : Option String) (u1 u2 : String) :
    (topology cfg u1).take 13 = (topology cfg u2).take 13 ∧
      (u1.take 8 = u2.take 8 → topology cfg u1 = topology cfg u2) := by
  constructor
  · simp only [topology, List.take_succ_cons, List.take_zero]
  · intro h
    unfold topology budgetDescriptor budget_name
    rw [h]

/-- Claim C1 witness: two concrete uuid draws agreeing on their first 8
characters yield identical topologies. -/
theorem claim_C1_witness :
    String.take "0123456789abcdef0123456789abcdef" 8 =
        String.take "01234567ffffffffffffffffffffffff" 8 ∧
      topology none "0123456789abcdef0123456789abcdef" =
        topology none "01234567ffffffffffffffffffffffff" :=
  ⟨by decide, (claim_C1 none "0123456789abcdef0123456789abcdef"
      "01234567ffffffffffffffffffffffff").2 (by decide)⟩

/-- Claim C2, counterexample: the secret `key1` fetched by
`list_account_keys` IS published as an exported stack output — the export
named `cognitive_key` carries it — refuting the claim that no secret key
value appears among the exported stack outputs. -/
theorem claim_C2_counterexample :
    ("cognitive_key", Val.secretRef "key1") ∈ exports ∧
      isSecretVal (Val.secretRef "key1") = true := by
  decide

/-- Claim C2, amended: the secret `key1` is threaded into the web app
application settings (the `COG_SERVICES_KEY` entry of `webAppSettings`) and,
additionally, published as the single secret-carrying stack output
`cognitive_key`; no other descriptor property and no other export carries a
secret value, and the script contains no logging statement. -/
theorem claim_C2 (cfg : Option String) (u : String) :
    ("COG_SERVICES_KEY", Val.secretRef "key1") ∈ app_settings.props ∧
      secretsOnlyInAppSettings (topology cfg u) = true ∧
      secretExportNames exports = ["cognitive_key"] :=
  ⟨by decide, rfl, rfl⟩

/-- Claim C3: the budget declares the fixed start date 2024-12-01; for every
apply whose year-month is after the start month (December 2024), the
spec-modelled provider precondition — the declared window must start in the
present or future month relative to apply time — fails, so the provider
rejects the budget resource. -/
theorem claim_C3 (u : String) (applyYM : Nat)
    (h : parseYM budget_start_date < applyYM) :
    (my_budget u).time_period.start_date = budget_start_date ∧
      ¬ providerAcceptsBudgetStart applyYM
          (parseYM (my_budget u).time_period.start_date) := by
  refine ⟨rfl, ?_⟩
  show ¬ applyYM ≤ parseYM budget_start_date
  omega

/-- Claim C3 witness: at apply month October 2026 (2026 * 12 + 10 = 24322),
strictly after December 2024, the provider precondition fails. -/
theorem claim_C3_witness :
    parseYM budget_start_date < 24322 ∧
      ¬ providerAcceptsBudgetStart 24322
          (parseYM (my_budget "deadbeef").time_period.start_date) :=
  ⟨by decide, (claim_C3 "deadbeef" 24322 (by decide)).2⟩

/-- Claim C4: the topology contains exactly one PrivateZone descriptor, and
its declared zone name is exactly the reserved private-link zone name
`privatelink.cognitiveservices.azure.com`. -/
theorem claim_C4 (cfg : Option String) (u : String) :
    ((topology cfg u).filter fun d => d.resourceType == "network.PrivateZone") =
        [private_dns_zone] ∧
      private_dns_zone.physicalName =
        some "privatelink.cognitiveservices.azure.com" :=
  ⟨rfl, rfl⟩

/-- Claim C5: the `web_app_url` export applies the https-prefixing lambda to
the generated hostname of the web app; for every hostname value the result
is the string `https://` prepended to the hostname and is never the bare
hostname itself. -/
theorem claim_C5 (host : String) :
    ("web_app_url", Val.httpsRef "webApp" "default_host_name") ∈ exports ∧
      hostToUrl host = "https://" ++ host ∧ hostToUrl host ≠ host := by
  refine ⟨by decide, rfl, ?_⟩
  intro heq
  have hl := congrArg String.length heq
  rw [hostToUrl, String.length_append] at hl
  have h8 : "https://".length = 8 := rfl
  omega

/-- Claim C6: the budget declares exactly two notification rules — one on
actual spend at threshold 80 and one on forecast spend at threshold 100 —
each enabled and routed to a non-empty email contact list; the two
thresholds are distinct and the actual-spend threshold lies within
[0, 100]. -/
theorem claim_C6 (u : String) :
    (my_budget u).notifications.length = 2 ∧
      ((my_budget u).notifications.map fun p =>
          (p.2.threshold_type, p.2.threshold, p.2.contact_emails.isEmpty,
            p.2.enabled)) =
        [("Actual", 80, false, true), ("Forecasted", 100, false, true)] ∧
      (80 : Nat) ≠ 100 ∧ (80 : Nat) ≤ 100 :=
  ⟨rfl, rfl, by decide, by decide⟩

/-- Claim C7: every output reference of every descriptor names a descriptor
declared strictly earlier in the topology (no dangling references); since
every edge points strictly backwards in declaration order, the reference
graph is acyclic. -/
theorem claim_C7 (cfg : Option String) (u : String) :
    refsResolveForward (topology cfg u) = true := rfl

/-- Claim C8, counterexample: supplying the empty string as the region input
does not use the supplied value — Python `or` treats the empty string as
falsy, so the location falls back to the default `westeurope`. -/
theorem claim_C8_counterexample :
    location (some "") = "westeurope" ∧ "westeurope" ≠ "" := by
  decide

/-- Claim C8, amended: when the region input is omitted the location is the
fixed default `westeurope`; when a non-empty value is supplied it is used;
a supplied empty string also falls back to the default; the notification
email and subscription identifier are hard-coded constants independent of
any configuration input. -/
theorem claim_C8 (s : String) (h : s ≠ "") :
    location none = "westeurope" ∧ location (some s) = s ∧
      location (some "") = "westeurope" ∧
      email = "wi24b100@technikum-wien.at" ∧
      subscription_id = "64b584d9-7fa6-49e0-ae15-d41006efcf1b" := by
  refine ⟨rfl, ?_, rfl, rfl, rfl⟩
  simp [location, h]

/-- Claim C8 witness: the non-empty supplied region `northeurope` is used
verbatim. -/
theorem claim_C8_witness :
    "northeurope" ≠ "" ∧ location (some "northeurope") = "northeurope" :=
  ⟨by decide, (claim_C8 "northeurope" (by decide)).2.1⟩

/-- Claim C9: the two declared subnet address ranges `10.10.1.0/24` and
`10.10.2.0/24` parse to disjoint numeric address blocks, and each is
contained in the numeric block of the declared virtual-network address
space `10.10.0.0/16` (exact integer arithmetic over the parsed CIDR
strings taken from the descriptors). -/
theorem claim_C9 (cfg : Option String) (x : Nat) :
    ("address_prefix", Val.str app_subnet_cidr) ∈ app_subnet.props ∧
      ("address_prefix", Val.str endpoint_subnet_cidr) ∈ endpoint_subnet.props ∧
      ("address_space.address_prefixes", Val.str vnet_cidr) ∈ (vnet cfg).props ∧
      parseCidr vnet_cidr = some vnetBlock ∧
      parseCidr app_subnet_cidr = some appSubnetBlock ∧
      parseCidr endpoint_subnet_cidr = some endpointSubnetBlock ∧
      (Cidr.containsAddr appSubnetBlock x = true →
        Cidr.containsAddr vnetBlock x = true) ∧
      (Cidr.containsAddr endpointSubnetBlock x = true →
        Cidr.containsAddr vnetBlock x = true) ∧
      ¬ (Cidr.containsAddr appSubnetBlock x = true ∧
          Cidr.containsAddr endpointSubnetBlock x = true) := by
  refine ⟨by decide, by decide, by simp [vnet], by decide, by decide, by decide,
    ?_, ?_, ?_⟩
  · intro hx
    simp [Cidr.containsAddr, Cidr.size, appSubnetBlock, vnetBlock] at *
    omega
  · intro hx
    simp [Cidr.containsAddr, Cidr.size, endpointSubnetBlock, vnetBlock] at *
    omega
  · rintro ⟨h1, h2⟩
    simp [Cidr.containsAddr, Cidr.size, appSubnetBlock, endpointSubnetBlock] at *
    omega

/-- Claim C9 witness: the concrete address 10.10.1.7 lies in the app-subnet
block and, by the claim, in the virtual-network block. -/
theorem claim_C9_witness :
    Cidr.containsAddr appSubnetBlock (((10 * 256 + 10) * 256 + 1) * 256 + 7) = true ∧
      Cidr.containsAddr vnetBlock (((10 * 256 + 10) * 256 + 1) * 256 + 7) = true :=
  ⟨by decide,
    (claim_C9 none (((10 * 256 + 10) * 256 + 1) * 256 + 7)).2.2.2.2.2.2.1
      (by decide)⟩

/-- Claim C10: every descriptor of the topology is either declared with the
fixed resource-group parameter `paas-rg` and no scope parameter, or it is
the budget, which has no resource-group parameter and is scoped to the
hard-coded subscription. -/
theorem claim_C10 (cfg : Option String) (u : String) (d : Descriptor)
    (hd : d ∈ topology cfg u) :
    (d.scope = none ∧ d.resource_group_name = some "paas-rg") ∨
      (d.logicalName = budget_name u ∧ d.resource_group_name = none ∧
        d.scope = some ("/subscriptions/" ++ subscription_id)) := by
  simp only [topology, List.mem_cons, List.not_mem_nil, or_false] at hd
  rcases hd with rfl | rfl | rfl | rfl | rfl | rfl | rfl | rfl | rfl | rfl |
    rfl | rfl | rfl | rfl
  all_goals first
    | exact Or.inl ⟨rfl, rfl⟩
    | exact Or.inr ⟨rfl, rfl, rfl⟩

/-- Claim C10 witness: the concrete budget descriptor is subscription-scoped
with no resource-group parameter. -/
theorem claim_C10_witness :
    ((budgetDescriptor "ffffffff").scope = none ∧
        (budgetDescriptor "ffffffff").resource_group_name = some "paas-rg") ∨
      ((budgetDescriptor "ffffffff").logicalName = budget_name "ffffffff" ∧
        (budgetDescriptor "ffffffff").resource_group_name = none ∧
        (budgetDescriptor "ffffffff").scope =
          some ("/subscriptions/" ++ subscription_id)) :=
  claim_C10 none "ffffffff" (budgetDescriptor "ffffffff") (by decide)

end PaaS
